import Mathlib

/-! Shallow embedding of the core of act.c (Aerospike Certification Tool,
storage variant, version 3.1), together with proofs settling the claims of
its natural-language specification.

Machine integers are modelled as `Nat` with explicit reduction modulo
2^32 / 2^64 at the points where the C code performs 32-bit / 64-bit
unsigned arithmetic.  OS effects (open, lseek, read, write, the monotonic
clock, `rand()`) are modelled as explicit boolean / numeric parameters:
`openOk` is whether `open`/`fd_get` yields a usable descriptor, `seekOk`
whether the initial `lseek` of the probe succeeds, `readOk sz` whether a
direct read of `sz` bytes succeeds, `io_ok` whether the seek-and-transfer
pair of one I/O succeeds, and `r1 r2` are values returned by `rand()`. -/

namespace Act

/-- Cardinality of the `uint32_t` range, 2^32. -/
def UINT32_CARD : Nat := 4294967296

/-- Cardinality of the `uint64_t` range, 2^64. -/
def UINT64_CARD : Nat := 18446744073709551616

/-- Value of `(uint64_t)-1`, the error sentinel returned by the I/O engine. -/
def UINT64_MAX : Nat := 18446744073709551615

/-- Reduction of a natural number to its `uint32_t` value. -/
def u32 (x : Nat) : Nat := x % UINT32_CARD

/-- Reduction of a natural number to its `uint64_t` value. -/
def u64 (x : Nat) : Nat := x % UINT64_CARD

/-- `const uint32_t LO_IO_MIN_SIZE = 512;` from act.c. -/
def LO_IO_MIN_SIZE : Nat := 512

/-- `const uint32_t HI_IO_MIN_SIZE = 4096;` from act.c. -/
def HI_IO_MIN_SIZE : Nat := 4096

/-- `const uint32_t MAX_READ_REQS_QUEUED = 100000;` from act.c.  This is a
compile-time constant of act.c, not read from the configuration. -/
def MAX_READ_REQS_QUEUED : Nat := 100000

/-- Modelled from the spec: the configuration record `g_cfg`
(configuration.h / configure() are not part of the given sources).  Only
the fields the modelled core reads are included, plus `max_reqs_queued`,
which the spec's configuration table lists (key `max-reqs-queued`,
default 100000) but which act.c never consults. -/
structure Config where
  large_block_ops_bytes : Nat
  record_bytes : Nat
  max_reqs_queued : Nat
deriving DecidableEq, Repr

/-- The geometry fields of `struct _device` that the probe
`discover_num_blocks` fills in: `num_large_blocks` and
`num_read_offsets` are `uint64_t`, `min_op_bytes` and `read_bytes` are
`uint32_t`. -/
structure DeviceGeom where
  num_large_blocks : Nat
  num_read_offsets : Nat
  min_op_bytes : Nat
  read_bytes : Nat
deriving DecidableEq, Repr

/-- The probe loop of `discover_min_op_bytes`:
`while (read_sz <= HI_IO_MIN_SIZE) { if (read(..) == read_sz) return read_sz;
read_sz <<= 1; } return 0;`.  The loop visits at most the sizes 512, 1024,
2048, 4096, so any fuel of at least 5 computes the exact result. -/
def dmob_loop (readOk : Nat → Bool) (read_sz : Nat) : Nat → Nat
  | 0 => 0
  | fuel + 1 =>
    if read_sz ≤ HI_IO_MIN_SIZE then
      if readOk read_sz then read_sz else dmob_loop readOk (read_sz * 2) fuel
    else 0

/-- `discover_min_op_bytes` from act.c: seek to 0 (failure returns 0), then
probe direct reads of 512, 1024, 2048, 4096 bytes; the first size that
succeeds is returned, 0 if none does.  (The allocation of the probe buffer
is assumed to succeed.) -/
def discover_min_op_bytes (seekOk : Bool) (readOk : Nat → Bool) : Nat :=
  if seekOk = false then 0 else dmob_loop readOk LO_IO_MIN_SIZE 5

/-- The local `num_min_op_blocks` of `discover_num_blocks`:
`(num_large_blocks * g_cfg.large_block_ops_bytes) / min_op_bytes`, computed
in `uint64_t`. -/
def num_min_op_blocks (cfg : Config) (num_large_blocks min_op_bytes : Nat) : Nat :=
  u64 (num_large_blocks * cfg.large_block_ops_bytes) / min_op_bytes

/-- The local `read_req_min_op_blocks` of `discover_num_blocks`:
`(g_cfg.record_bytes + min_op_bytes - 1) / min_op_bytes`, whose numerator is
computed in 32-bit unsigned arithmetic (`record_bytes` and `min_op_bytes`
are `uint32_t`).  Since `record_bytes + min_op_bytes ≥ 1`, truncated
subtraction under `u32` agrees with the C wrap-around. -/
def read_req_min_op_blocks (cfg : Config) (min_op_bytes : Nat) : Nat :=
  u32 (cfg.record_bytes + min_op_bytes - 1) / min_op_bytes

/-- `discover_num_blocks` from act.c.  `device_bytes` is the `uint64_t`
reported by `ioctl(fd, BLKGETSIZE64, ..)`; `openOk` models `fd_get`
succeeding.  The `uint64_t` expression `num_min_op_blocks -
read_req_min_op_blocks + 1` is modelled as
`u64 (nmob + (UINT64_CARD - rrb) + 1)`, which coincides with the wrapping C
computation because `rrb < UINT64_CARD`.  There is no check on the value of
`num_read_offsets`: the function succeeds whenever the descriptor, the
large-block count and the probed minimum op size are all non-trivial. -/
def discover_num_blocks (cfg : Config) (device_bytes : Nat) (openOk seekOk : Bool)
    (readOk : Nat → Bool) : Option DeviceGeom :=
  if openOk = false then none
  else
    let num_large_blocks := device_bytes / cfg.large_block_ops_bytes
    let min_op_bytes := u32 (discover_min_op_bytes seekOk readOk)
    if num_large_blocks = 0 ∨ min_op_bytes = 0 then none
    else
      some { num_large_blocks := num_large_blocks
             num_read_offsets := u64 (num_min_op_blocks cfg num_large_blocks min_op_bytes
               + (UINT64_CARD - read_req_min_op_blocks cfg min_op_bytes) + 1)
             min_op_bytes := min_op_bytes
             read_bytes := u32 (read_req_min_op_blocks cfg min_op_bytes * min_op_bytes) }

/-- `rand_31` from act.c: `(uint32_t)rand()`, where `rand()` yields a value
in [0, 2^31). -/
def rand_31 (r : Nat) : Nat := r % 2147483648

/-- `rand_48` from act.c:
`((uint64_t)rand() << 16) | ((uint64_t)rand() & 0xffff)`. -/
def rand_48 (r1 r2 : Nat) : Nat := (rand_31 r1 <<< 16) ||| (rand_31 r2 &&& 0xffff)

/-- `random_read_offset` from act.c:
`(rand_48() % p_device->num_read_offsets) * p_device->min_op_bytes`, a
`uint64_t` multiplication. -/
def random_read_offset (geom : DeviceGeom) (r : Nat) : Nat :=
  u64 ((r % geom.num_read_offsets) * geom.min_op_bytes)

/-- `random_large_block_offset` from act.c:
`(rand_48() % p_device->num_large_blocks) * g_cfg.large_block_ops_bytes`, a
`uint64_t` multiplication. -/
def random_large_block_offset (cfg : Config) (geom : DeviceGeom) (r : Nat) : Nat :=
  u64 ((r % geom.num_large_blocks) * cfg.large_block_ops_bytes)

/-- The fields of `struct _readreq` relevant to the device geometry (the
device pointer is replaced by the geometry record itself). -/
structure ReadReq where
  offset : Nat
  size : Nat
  start_time : Nat
deriving DecidableEq, Repr

/-- The readreq construction inside the loop of `run_add_readreqs`:
`p_readreq->offset = random_read_offset(..); p_readreq->size =
p_random_device->read_bytes; p_readreq->start_time = cf_getns();`. -/
def mk_readreq (geom : DeviceGeom) (r1 r2 now : Nat) : ReadReq :=
  { offset := random_read_offset geom (rand_48 r1 r2)
    size := geom.read_bytes
    start_time := now }

/-- Queue selection in `run_add_readreqs`:
`uint32_t queue_index = count % g_cfg.num_queues;`. -/
def queue_index (count num_queues : Nat) : Nat := count % num_queues

/-- `align_4096` from act.c:
`(uint8_t*)(((uint64_t)stack_buffer + 4095) & ~4095ULL)`.  The complement
mask `~4095ULL` is the constant `UINT64_CARD - 4096`. -/
def align_4096 (stack_buffer : Nat) : Nat :=
  u64 (stack_buffer + 4095) &&& (UINT64_CARD - 4096)

/-- `safe_delta_ns` from act.c:
`start_ns > stop_ns ? 0 : stop_ns - start_ns`. -/
def safe_delta_ns (start_ns stop_ns : Nat) : Nat :=
  if start_ns > stop_ns then 0 else stop_ns - start_ns

/-- `fd_get` from act.c: pop a descriptor from the device's FIFO descriptor
queue; when the queue is empty, `open` the device (`openResult` is the
descriptor `open` returns, -1 on failure). -/
def fd_get (pool : List Int) (openResult : Int) : Int × List Int :=
  match pool with
  | fd :: rest => (fd, rest)
  | [] => (openResult, [])

/-- `fd_put` from act.c: push a descriptor back onto the device's FIFO
descriptor queue. -/
def fd_put (pool : List Int) (fd : Int) : List Int := pool ++ [fd]

/-- Result of one call into the direct-I/O engine: the `uint64_t` return
value, the device's descriptor pool afterwards, and the descriptors the
call closed. -/
structure IoOutcome where
  ret : Nat
  pool : List Int
  closed : List Int
deriving DecidableEq, Repr

/-- `read_from_device` from act.c.  `io_ok` models
`lseek(fd, offset, SEEK_SET) == offset && read(fd, buf, size) == size`;
`stop_ns` is the value `cf_getns()` returns after a successful transfer.
On open failure the sentinel is returned; on seek/read failure the
descriptor is closed (not pooled) and the sentinel is returned; on success
the descriptor is pooled and the stop time is returned. -/
def read_from_device (pool : List Int) (openResult : Int) (offset size : Nat)
    (io_ok : Bool) (stop_ns : Nat) : IoOutcome :=
  let fd := (fd_get pool openResult).1
  let pool1 := (fd_get pool openResult).2
  if fd = -1 then { ret := UINT64_MAX, pool := pool1, closed := [] }
  else if io_ok = false then { ret := UINT64_MAX, pool := pool1, closed := [fd] }
  else { ret := u64 stop_ns, pool := fd_put pool1 fd, closed := [] }

/-- `write_to_device` from act.c; identical control flow to
`read_from_device` with `write` in place of `read`. -/
def write_to_device (pool : List Int) (openResult : Int) (offset size : Nat)
    (io_ok : Bool) (stop_ns : Nat) : IoOutcome :=
  let fd := (fd_get pool openResult).1
  let pool1 := (fd_get pool openResult).2
  if fd = -1 then { ret := UINT64_MAX, pool := pool1, closed := [] }
  else if io_ok = false then { ret := UINT64_MAX, pool := pool1, closed := [fd] }
  else { ret := u64 stop_ns, pool := fd_put pool1 fd, closed := [] }

/-- The three histograms `read_and_report` inserts into: the global raw-read
histogram, the global end-to-end read histogram, and the device's raw-read
histogram.  A histogram is modelled as the list of data points inserted. -/
structure Hists where
  raw_read : List Nat
  read : List Nat
  dev_raw_read : List Nat
deriving DecidableEq, Repr

/-- `histogram_insert_data_point`, modelled as appending the data point. -/
def histogram_insert_data_point (h : List Nat) (x : Nat) : List Nat := h ++ [x]

/-- Result of one call to `read_and_report`: the histograms, the `g_running`
flag (threaded through unchanged to make explicit that the function never
writes it), and the descriptor-pool effects of the inner I/O call. -/
structure ReportResult where
  hists : Hists
  running : Bool
  pool : List Int
  closed : List Int
deriving DecidableEq, Repr

/-- `read_and_report` from act.c: one transaction read.  `raw_start` is the
`cf_getns()` value taken just before `read_from_device`; on success
(`stop_time != -1`) the three latency deltas are inserted, on failure
nothing is inserted.  `g_running` is never touched. -/
def read_and_report (p_readreq : ReadReq) (hists : Hists) (running : Bool)
    (pool : List Int) (openResult : Int) (io_ok : Bool)
    (raw_start stop_ns : Nat) : ReportResult :=
  let out := read_from_device pool openResult p_readreq.offset p_readreq.size io_ok stop_ns
  if out.ret ≠ UINT64_MAX then
    { hists := { raw_read := histogram_insert_data_point hists.raw_read
                   (safe_delta_ns raw_start out.ret)
                 read := histogram_insert_data_point hists.read
                   (safe_delta_ns p_readreq.start_time out.ret)
                 dev_raw_read := histogram_insert_data_point hists.dev_raw_read
                   (safe_delta_ns raw_start out.ret) }
      running := running, pool := out.pool, closed := out.closed }
  else
    { hists := hists, running := running, pool := out.pool, closed := out.closed }

/-- Global state of the request pipeline: `g_running`, the atomic counter
`g_read_reqs_queued` (a `uint32_t` value), the total number of requests
sitting in the read queues, the number of requests popped by a worker whose
processing (and counter decrement) is still pending, whether the generator
has executed `cf_atomic32_incr` but not yet `cf_queue_push` in the current
iteration, whether the generator thread has exited its loop, the number of
worker threads still in their loop, and whether the generator exited via
the overload branch. -/
structure SysState where
  running : Bool
  reqs_queued : Nat
  queued : Nat
  inflight : Nat
  genPending : Bool
  genExited : Bool
  activeWorkers : Nat
  overloaded : Bool
deriving DecidableEq, Repr

/-- Atomic events of the interleaved execution of `run_add_readreqs`,
`run_reads` and the supervisor in `main`. -/
inductive Ev
  | genIncr
  | genPush
  | genExit
  | stopRun
  | workerPop
  | workerDone
  | workerExit
deriving DecidableEq, Repr

/-- One atomic step of the pipeline.  `genIncr` is the generator executing
`cf_atomic32_incr(&g_read_reqs_queued) > MAX_READ_REQS_QUEUED`: on overload
it prints, clears `g_running` and breaks out of the loop without enqueuing;
otherwise the push (`genPush`) is still to come.  `genExit` is the
generator observing `!g_running` at the loop head.  `workerPop` is a worker
popping a request from a queue; `workerDone` is that worker finishing
`read_and_report`, freeing the request and executing `cf_atomic32_decr`
(a wrapping `uint32_t` decrement).  `workerExit` is an idle worker
observing `!g_running` at its loop head.  `stopRun` is the supervisor's
`g_running = false`.  The `cfg` parameter mirrors the access the loop has
to `g_cfg`; note the overload comparison uses the compile-time constant
`MAX_READ_REQS_QUEUED`, not `cfg.max_reqs_queued`. -/
def step (cfg : Config) (e : Ev) (s : SysState) : SysState :=
  match e with
  | .genIncr =>
    if s.running = true ∧ s.genExited = false ∧ s.genPending = false then
      if u32 (s.reqs_queued + 1) > MAX_READ_REQS_QUEUED then
        { s with reqs_queued := u32 (s.reqs_queued + 1), running := false,
                 genExited := true, overloaded := true }
      else
        { s with reqs_queued := u32 (s.reqs_queued + 1), genPending := true }
    else s
  | .genPush =>
    if s.genPending = true then
      { s with queued := s.queued + 1, genPending := false }
    else s
  | .genExit =>
    if s.running = false ∧ s.genPending = false ∧ s.genExited = false then
      { s with genExited := true }
    else s
  | .stopRun => { s with running := false }
  | .workerPop =>
    if 0 < s.queued ∧ s.inflight < s.activeWorkers then
      { s with queued := s.queued - 1, inflight := s.inflight + 1 }
    else s
  | .workerDone =>
    if 0 < s.inflight then
      { s with inflight := s.inflight - 1,
               reqs_queued := u32 (s.reqs_queued + (UINT32_CARD - 1)) }
    else s
  | .workerExit =>
    if s.running = false ∧ s.inflight < s.activeWorkers then
      { s with activeWorkers := s.activeWorkers - 1 }
    else s

/-- State right after `main` sets `g_running = true` and starts the request
threads: counter 0, empty queues, generator in its loop, `workers` worker
threads in their loops. -/
def initState (workers : Nat) : SysState :=
  { running := true, reqs_queued := 0, queued := 0, inflight := 0,
    genPending := false, genExited := false, activeWorkers := workers,
    overloaded := false }

/-- Execution of a sequence of interleaved events. -/
def runEvents (cfg : Config) (evs : List Ev) (s : SysState) : SysState :=
  evs.foldl (fun t e => step cfg e t) s

/-- Invariant of the pipeline: the counter equals the requests in queues,
plus the in-flight requests, plus the generator's not-yet-pushed increment,
plus the phantom increment of an overload exit; the counter never exceeds
`MAX_READ_REQS_QUEUED + 1`; only the overload branch reaches that value;
overload implies the generator exited; in-flight requests are bounded by
live workers; an exited generator has no pending push. -/
def Inv (s : SysState) : Prop :=
  s.reqs_queued = s.queued + s.inflight + (if s.genPending then 1 else 0)
      + (if s.overloaded then 1 else 0)
  ∧ s.reqs_queued ≤ MAX_READ_REQS_QUEUED + 1
  ∧ (s.overloaded = true → s.genExited = true)
  ∧ (s.reqs_queued = MAX_READ_REQS_QUEUED + 1 → s.overloaded = true)
  ∧ s.inflight ≤ s.activeWorkers
  ∧ (s.genExited = true → s.genPending = false)

/-- Configuration with the default values of the spec's table:
`large-block-op-kbytes: 128` (so 131072 bytes), `record-bytes: 1536`,
`max-reqs-queued: 100000`. -/
def cfgDefault : Config :=
  { large_block_ops_bytes := 131072, record_bytes := 1536, max_reqs_queued := 100000 }

/-- Configuration with a record size (200000 bytes) larger than a small
device; all other values default. -/
def cfgBigRecord : Config :=
  { large_block_ops_bytes := 131072, record_bytes := 200000, max_reqs_queued := 100000 }

/-- Configuration with `record-bytes` at the top of the `uint32_t` range,
4294967295; all other values default. -/
def cfgHugeRecord : Config :=
  { large_block_ops_bytes := 131072, record_bytes := 4294967295, max_reqs_queued := 100000 }

/-- Probe-read model of a device whose minimum direct-I/O size is 512
bytes. -/
def readOk512 (sz : Nat) : Bool := sz == 512

/-- Configuration equal to `cfgDefault` except that the `max-reqs-queued`
key is set to 5. -/
def cfgSmallMax : Config :=
  { large_block_ops_bytes := 131072, record_bytes := 1536, max_reqs_queued := 5 }

/-- Pipeline state with the counter at 100000, generator between
iterations, one idle worker. -/
def sAtMax : SysState :=
  { running := true, reqs_queued := 100000, queued := 0, inflight := 0,
    genPending := false, genExited := false, activeWorkers := 1,
    overloaded := false }

/-- Pipeline state with the counter at 5, generator between iterations,
one idle worker. -/
def sAtFive : SysState :=
  { running := true, reqs_queued := 5, queued := 0, inflight := 0,
    genPending := false, genExited := false, activeWorkers := 1,
    overloaded := false }

/-! Supporting lemmas. -/

lemma u32_le (x : Nat) : u32 x ≤ x := Nat.mod_le x UINT32_CARD

lemma u64_le (x : Nat) : u64 x ≤ x := Nat.mod_le x UINT64_CARD

lemma u32_lt (x : Nat) : u32 x < UINT32_CARD := Nat.mod_lt x (by norm_num [UINT32_CARD])

lemma u64_lt (x : Nat) : u64 x < UINT64_CARD := Nat.mod_lt x (by norm_num [UINT64_CARD])

lemma u32_eq_of_lt {x : Nat} (h : x < UINT32_CARD) : u32 x = x := Nat.mod_eq_of_lt h

lemma u64_eq_of_lt {x : Nat} (h : x < UINT64_CARD) : u64 x = x := Nat.mod_eq_of_lt h

/-- The probe result is 0 (failure) or one of the four probed sizes. -/
lemma dmob_mem (seekOk : Bool) (readOk : Nat → Bool) :
    discover_min_op_bytes seekOk readOk = 0 ∨ discover_min_op_bytes seekOk readOk = 512 ∨
    discover_min_op_bytes seekOk readOk = 1024 ∨ discover_min_op_bytes seekOk readOk = 2048 ∨
    discover_min_op_bytes seekOk readOk = 4096 := by
  cases seekOk with
  | false => simp [discover_min_op_bytes]
  | true =>
    cases h1 : readOk 512 <;> cases h2 : readOk 1024 <;> cases h3 : readOk 2048 <;>
      cases h4 : readOk 4096 <;>
      simp [discover_min_op_bytes, dmob_loop, LO_IO_MIN_SIZE, HI_IO_MIN_SIZE, h1, h2, h3, h4]

/-- The probe fails exactly when the initial seek fails or every probed
read size fails. -/
lemma dmob_eq_zero_iff (seekOk : Bool) (readOk : Nat → Bool) :
    discover_min_op_bytes seekOk readOk = 0 ↔
      seekOk = false ∨ (readOk 512 = false ∧ readOk 1024 = false ∧
        readOk 2048 = false ∧ readOk 4096 = false) := by
  cases seekOk with
  | false => simp [discover_min_op_bytes]
  | true =>
    cases h1 : readOk 512 <;> cases h2 : readOk 1024 <;> cases h3 : readOk 2048 <;>
      cases h4 : readOk 4096 <;>
      simp [discover_min_op_bytes, dmob_loop, LO_IO_MIN_SIZE, HI_IO_MIN_SIZE, h1, h2, h3, h4]

/-- Inversion of a successful `discover_num_blocks` call: how each stored
geometry field was computed. -/
lemma discover_fields {cfg : Config} {db : Nat} {openOk seekOk : Bool}
    {readOk : Nat → Bool} {geom : DeviceGeom}
    (h : discover_num_blocks cfg db openOk seekOk readOk = some geom) :
    geom.num_large_blocks = db / cfg.large_block_ops_bytes ∧
    geom.num_large_blocks ≠ 0 ∧
    geom.min_op_bytes = discover_min_op_bytes seekOk readOk ∧
    geom.min_op_bytes ≠ 0 ∧
    geom.num_read_offsets = u64 (num_min_op_blocks cfg geom.num_large_blocks geom.min_op_bytes
      + (UINT64_CARD - read_req_min_op_blocks cfg geom.min_op_bytes) + 1) ∧
    geom.read_bytes = u32 (read_req_min_op_blocks cfg geom.min_op_bytes * geom.min_op_bytes) := by
  have hid : u32 (discover_min_op_bytes seekOk readOk) = discover_min_op_bytes seekOk readOk := by
    rcases dmob_mem seekOk readOk with h0 | h0 | h0 | h0 | h0 <;> rw [h0] <;> rfl
  simp only [discover_num_blocks] at h
  split_ifs at h with h1 h2
  rw [Option.some_inj] at h
  subst h
  push_neg at h2
  refine ⟨rfl, h2.1, hid, ?_, ?_, ?_⟩
  · simpa [hid] using h2.2
  · simp [hid]
  · simp [hid]

/-- A successfully probed `min_op_bytes` is one of the four probed sizes. -/
lemma min_op_mem {cfg : Config} {db : Nat} {openOk seekOk : Bool}
    {readOk : Nat → Bool} {geom : DeviceGeom}
    (h : discover_num_blocks cfg db openOk seekOk readOk = some geom) :
    geom.min_op_bytes = 512 ∨ geom.min_op_bytes = 1024 ∨
    geom.min_op_bytes = 2048 ∨ geom.min_op_bytes = 4096 := by
  obtain ⟨-, -, h3, h4, -, -⟩ := discover_fields h
  rw [h3] at h4 ⊢
  rcases dmob_mem seekOk readOk with h0 | h0 | h0 | h0 | h0
  · exact absurd h0 h4
  · exact Or.inl h0
  · exact Or.inr (Or.inl h0)
  · exact Or.inr (Or.inr (Or.inl h0))
  · exact Or.inr (Or.inr (Or.inr h0))

/-- A probed `min_op_bytes` is a power of two between 512 and 4096 dividing
2^32. -/
lemma min_op_facts {cfg : Config} {db : Nat} {openOk seekOk : Bool}
    {readOk : Nat → Bool} {geom : DeviceGeom}
    (h : discover_num_blocks cfg db openOk seekOk readOk = some geom) :
    512 ≤ geom.min_op_bytes ∧ geom.min_op_bytes ≤ 4096 ∧
      geom.min_op_bytes ∣ UINT32_CARD := by
  rcases min_op_mem h with h0 | h0 | h0 | h0 <;> rw [h0] <;>
    exact ⟨by norm_num, by norm_num, by norm_num [UINT32_CARD]⟩

lemma nmob_mul_le (cfg : Config) (nlb m : Nat) :
    num_min_op_blocks cfg nlb m * m ≤ u64 (nlb * cfg.large_block_ops_bytes) :=
  Nat.div_mul_le_self _ _

lemma nmob_bound (cfg : Config) (nlb : Nat) {m : Nat} (hm : 512 ≤ m) :
    num_min_op_blocks cfg nlb m ≤ (UINT64_CARD - 1) / 512 := by
  unfold num_min_op_blocks
  calc u64 (nlb * cfg.large_block_ops_bytes) / m
      ≤ u64 (nlb * cfg.large_block_ops_bytes) / 512 :=
        Nat.div_le_div_left hm (by norm_num)
    _ ≤ (UINT64_CARD - 1) / 512 :=
        Nat.div_le_div_right (Nat.le_pred_of_lt (u64_lt _))

/-- The wrapping 64-bit computation of `num_read_offsets` agrees with the
mathematical value `num_min_op_blocks - read_req_min_op_blocks + 1`
whenever the latter is non-negative. -/
lemma nro_of_fit (cfg : Config) (nlb : Nat) {m : Nat} (hm : 512 ≤ m)
    (hfit : read_req_min_op_blocks cfg m ≤ num_min_op_blocks cfg nlb m + 1) :
    u64 (num_min_op_blocks cfg nlb m + (UINT64_CARD - read_req_min_op_blocks cfg m) + 1)
      = num_min_op_blocks cfg nlb m + 1 - read_req_min_op_blocks cfg m := by
  have h1 := nmob_bound cfg nlb hm
  simp only [u64, UINT64_CARD] at h1 hfit ⊢
  omega

/-- Rounding up to a multiple: the C expression `(r + m - 1) / m` computes
the ceiling of `r / m`. -/
lemma ceil_div (r : Nat) {m : Nat} (hm : 0 < m) :
    (r + m - 1) / m = r / m + (if r % m = 0 then 0 else 1) := by
  obtain ⟨a, b, rfl, hb⟩ : ∃ a b, r = m * a + b ∧ b < m :=
    ⟨r / m, r % m, (Nat.div_add_mod r m).symm, Nat.mod_lt r hm⟩
  have hmod : (m * a + b) % m = b := by
    rw [Nat.add_comm (m * a) b, Nat.add_mul_mod_self_left, Nat.mod_eq_of_lt hb]
  have hdiv : (m * a + b) / m = a := by
    rw [Nat.add_comm (m * a) b, Nat.add_mul_div_left _ _ hm, Nat.div_eq_of_lt hb]
    omega
  rw [hmod, hdiv]
  by_cases hb0 : b = 0
  · subst hb0
    have h1 : m * a + 0 + m - 1 = (m - 1) + m * a := by omega
    rw [h1, Nat.add_mul_div_left _ _ hm, Nat.div_eq_of_lt (by omega)]
    simp
  · rw [if_neg hb0]
    have h1 : m * a + b + m - 1 = (b - 1) + m * (a + 1) := by
      rw [Nat.mul_add, Nat.mul_one]; omega
    rw [h1, Nat.add_mul_div_left _ _ hm, Nat.div_eq_of_lt (by omega)]
    omega

/-- Bitwise step of `align_4096`: masking with `~4095` truncates to a
multiple of 4096. -/
lemma land_mask {y : Nat} (hy : y < UINT64_CARD) :
    y &&& (UINT64_CARD - 4096) = y / 4096 * 4096 := by
  have hmask : UINT64_CARD - 4096 = (2 ^ 52 - 1) <<< 12 := by
    norm_num [UINT64_CARD, Nat.shiftLeft_eq]
  have hrhs : y / 4096 * 4096 = (y >>> 12) <<< 12 := by
    norm_num [Nat.shiftLeft_eq, Nat.shiftRight_eq_div_pow]
  rw [hmask, hrhs]
  apply Nat.eq_of_testBit_eq
  intro i
  simp only [Nat.testBit_and, Nat.testBit_shiftLeft, Nat.testBit_shiftRight,
    Nat.testBit_two_pow_sub_one]
  by_cases h12 : 12 ≤ i
  · by_cases h64 : i < 64
    · have ha : i - 12 < 52 := by omega
      have hb : 12 + (i - 12) = i := by omega
      simp [h12, ha, hb]
    · have hbit : y.testBit i = false := Nat.testBit_lt_two_pow (by
        have : UINT64_CARD = 2 ^ 64 := by norm_num [UINT64_CARD]
        calc y < 2 ^ 64 := this ▸ hy
          _ ≤ 2 ^ i := Nat.pow_le_pow_right (by norm_num) (by omega))
      have ha : ¬(i - 12 < 52) := by omega
      have hb : 12 + (i - 12) = i := by omega
      simp [h12, ha, hb, hbit]
  · simp [h12]

lemma align_eq {addr : Nat} (h : addr + 4095 < UINT64_CARD) :
    align_4096 addr = (addr + 4095) / 4096 * 4096 := by
  unfold align_4096
  rw [u64_eq_of_lt h]
  exact land_mask h

/-- The aligned pointer is 4096-aligned and lies in `[addr, addr + 4095]`. -/
lemma align_props {addr : Nat} (h : addr + 4095 < UINT64_CARD) :
    align_4096 addr % 4096 = 0 ∧ addr ≤ align_4096 addr ∧
      align_4096 addr ≤ addr + 4095 := by
  rw [align_eq h]
  refine ⟨Nat.mul_mod_left _ _, ?_, ?_⟩ <;> omega

/-- Shifting the start of a window of counter values translates the residue
being counted. -/
lemma mod_shift {q i : Nat} (hq : 0 < q) (hi : i < q) (s d : Nat) :
    ((s + d) % q = i) ↔ (d % q = (i + (q - s % q)) % q) := by
  have hsq : s % q < q := Nat.mod_lt s hq
  have h1 : ((s + d) % q = i) ↔ ((s + d : ℕ) : ZMod q) = ((i : ℕ) : ZMod q) := by
    rw [ZMod.natCast_eq_natCast_iff', Nat.mod_eq_of_lt hi]
  have h2 : (d % q = (i + (q - s % q)) % q) ↔
      ((d : ℕ) : ZMod q) = ((i + (q - s % q) : ℕ) : ZMod q) := by
    rw [ZMod.natCast_eq_natCast_iff']
  rw [h1, h2]
  have hc : ((q - s % q : ℕ) : ZMod q) = - ((s : ℕ) : ZMod q) := by
    rw [Nat.cast_sub (le_of_lt hsq), ZMod.natCast_self, ZMod.natCast_mod]
    ring
  push_cast
  rw [hc]
  constructor
  · intro h
    rw [← h]
    ring
  · intro h
    rw [h]
    ring

/-- Extending the window of generator iterations by one adds the indicator
of the new iteration's queue. -/
lemma cnt_succ (s N q i : Nat) :
    ((Finset.Ico s (s + (N + 1))).filter (fun c => queue_index c q = i)).card =
      ((Finset.Ico s (s + N)).filter (fun c => queue_index c q = i)).card
        + (if queue_index (s + N) q = i then 1 else 0) := by
  have h1 : s + (N + 1) = (s + N) + 1 := rfl
  rw [h1, Nat.Ico_succ_right_eq_insert_Ico (Nat.le_add_right s N), Finset.filter_insert]
  split_ifs with h
  · rw [Finset.card_insert_of_not_mem (by simp)]
  · rfl

/-- Closed form for the number of iterations in a window that are assigned
to a given queue. -/
lemma cnt_formula {q i : Nat} (hq : 0 < q) (hi : i < q) (s N : Nat) :
    ((Finset.Ico s (s + N)).filter (fun c => queue_index c q = i)).card =
      N / q + (if (i + (q - s % q)) % q < N % q then 1 else 0) := by
  induction N with
  | zero => simp
  | succ N ih =>
    rw [cnt_succ, ih]
    have hshift : (queue_index (s + N) q = i) ↔ (N % q = (i + (q - s % q)) % q) := by
      unfold queue_index
      exact mod_shift hq hi s N
    have hjq : (i + (q - s % q)) % q < q := Nat.mod_lt _ hq
    obtain ⟨a, b, hab, hb⟩ : ∃ a b, N = q * a + b ∧ b < q :=
      ⟨N / q, N % q, (Nat.div_add_mod N q).symm, Nat.mod_lt N hq⟩
    have hNdiv : N / q = a := by
      rw [hab, Nat.add_comm (q * a) b, Nat.add_mul_div_left _ _ hq, Nat.div_eq_of_lt hb]
      omega
    have hNmod : N % q = b := by
      rw [hab, Nat.add_comm (q * a) b, Nat.add_mul_mod_self_left, Nat.mod_eq_of_lt hb]
    by_cases hfull : b + 1 = q
    · have hsucc : N + 1 = q * (a + 1) := by rw [hab, Nat.mul_add, Nat.mul_one]; omega
      have hdiv1 : (N + 1) / q = a + 1 := by
        rw [hsucc, Nat.mul_comm, Nat.mul_div_cancel _ hq]
      have hmod1 : (N + 1) % q = 0 := by
        rw [hsucc, Nat.mul_comm, Nat.mul_mod_left]
      rw [hdiv1, hmod1, hNdiv]
      simp only [hshift, hNmod]
      split_ifs <;> omega
    · have hsucc : N + 1 = (b + 1) + q * a := by omega
      have hdiv1 : (N + 1) / q = a := by
        rw [hsucc, Nat.add_mul_div_left _ _ hq, Nat.div_eq_of_lt (by omega)]
        omega
      have hmod1 : (N + 1) % q = b + 1 := by
        rw [hsucc, Nat.add_mul_mod_self_left, Nat.mod_eq_of_lt (by omega)]
      rw [hdiv1, hmod1, hNdiv]
      simp only [hshift, hNmod]
      split_ifs <;> omega

/-- The pipeline invariant holds in the initial state. -/
lemma inv_init (workers : Nat) : Inv (initState workers) := by
  simp [Inv, initState, MAX_READ_REQS_QUEUED]

set_option maxHeartbeats 3200000 in
/-- Every atomic event preserves the pipeline invariant. -/
lemma inv_step (cfg : Config) (e : Ev) {s : SysState} (h : Inv s) : Inv (step cfg e s) := by
  obtain ⟨running, rq, qd, infl, pend, exited, workers, over⟩ := s
  unfold Inv at h ⊢
  cases e <;> cases running <;> cases pend <;> cases exited <;> cases over <;>
    simp only [step] <;>
    (try split_ifs) <;>
    (try simp only [u32, UINT32_CARD, MAX_READ_REQS_QUEUED] at *) <;>
    (try simp at *) <;>
    omega

/-- The pipeline invariant holds after any sequence of interleaved
events. -/
lemma inv_run (cfg : Config) (workers : Nat) (evs : List Ev) :
    Inv (runEvents cfg evs (initState workers)) := by
  suffices h : ∀ s, Inv s → Inv (runEvents cfg evs s) from h _ (inv_init workers)
  induction evs with
  | nil => exact fun s hs => hs
  | cons e t ih =>
    intro s hs
    exact ih _ (inv_step cfg e hs)

/-! Claim theorems. -/

/-- Claim C4: for every I/O issued through the direct-I/O engine
(`read_from_device` / `write_to_device`) on a successfully borrowed
descriptor: if the seek or transfer fails, the error sentinel
`(uint64_t)-1` is returned, the borrowed descriptor is closed and not
returned to the pool, the caller `read_and_report` skips all histogram
insertions for that operation and does not clear the running flag; if the
I/O succeeds, the descriptor is returned to the pool and the stop time is
returned. -/
theorem io_error_handling (pool : List Int) (openResult : Int) (off sz : Nat)
    (stop_ns raw_start : Nat) (req : ReadReq) (hists : Hists) (running : Bool)
    (hfd : (fd_get pool openResult).1 ≠ -1) :
    ((read_from_device pool openResult off sz false stop_ns).ret = UINT64_MAX ∧
     (read_from_device pool openResult off sz false stop_ns).closed
        = [(fd_get pool openResult).1] ∧
     (read_from_device pool openResult off sz false stop_ns).pool
        = (fd_get pool openResult).2 ∧
     (write_to_device pool openResult off sz false stop_ns).ret = UINT64_MAX ∧
     (write_to_device pool openResult off sz false stop_ns).closed
        = [(fd_get pool openResult).1] ∧
     (write_to_device pool openResult off sz false stop_ns).pool
        = (fd_get pool openResult).2 ∧
     (read_and_report req hists running pool openResult false raw_start stop_ns).hists
        = hists ∧
     (read_and_report req hists running pool openResult false raw_start stop_ns).running
        = running) ∧
    ((read_from_device pool openResult off sz true stop_ns).ret = u64 stop_ns ∧
     (read_from_device pool openResult off sz true stop_ns).pool
        = fd_put (fd_get pool openResult).2 (fd_get pool openResult).1 ∧
     (read_from_device pool openResult off sz true stop_ns).closed = []) := by
  have hfail : ∀ o z, read_from_device pool openResult o z false stop_ns =
      { ret := UINT64_MAX, pool := (fd_get pool openResult).2,
        closed := [(fd_get pool openResult).1] } := by
    intro o z
    simp [read_from_device, hfd]
  have hfailw : ∀ o z, write_to_device pool openResult o z false stop_ns =
      { ret := UINT64_MAX, pool := (fd_get pool openResult).2,
        closed := [(fd_get pool openResult).1] } := by
    intro o z
    simp [write_to_device, hfd]
  have hokr : ∀ o z, read_from_device pool openResult o z true stop_ns =
      { ret := u64 stop_ns,
        pool := fd_put (fd_get pool openResult).2 (fd_get pool openResult).1,
        closed := [] } := by
    intro o z
    simp [read_from_device, hfd]
  refine ⟨⟨?_, ?_, ?_, ?_, ?_, ?_, ?_, ?_⟩, ?_, ?_, ?_⟩ <;>
    simp [hfail, hfailw, hokr, read_and_report]

/-- Claim C4 witness: the error-handling contract instantiated on a pool
holding descriptor 3 and a failing transfer. -/
theorem io_error_handling_witness :
    ((fd_get [3] (-1)).1 ≠ -1) ∧
    (((read_from_device [3] (-1) 0 512 false 7).ret = UINT64_MAX ∧
      (read_from_device [3] (-1) 0 512 false 7).closed = [(fd_get [3] (-1)).1] ∧
      (read_from_device [3] (-1) 0 512 false 7).pool = (fd_get [3] (-1)).2 ∧
      (write_to_device [3] (-1) 0 512 false 7).ret = UINT64_MAX ∧
      (write_to_device [3] (-1) 0 512 false 7).closed = [(fd_get [3] (-1)).1] ∧
      (write_to_device [3] (-1) 0 512 false 7).pool = (fd_get [3] (-1)).2 ∧
      (read_and_report ⟨0, 512, 1⟩ ⟨[], [], []⟩ true [3] (-1) false 2 7).hists
        = (⟨[], [], []⟩ : Hists) ∧
      (read_and_report ⟨0, 512, 1⟩ ⟨[], [], []⟩ true [3] (-1) false 2 7).running = true) ∧
     ((read_from_device [3] (-1) 0 512 true 7).ret = u64 7 ∧
      (read_from_device [3] (-1) 0 512 true 7).pool
        = fd_put (fd_get [3] (-1)).2 (fd_get [3] (-1)).1 ∧
      (read_from_device [3] (-1) 0 512 true 7).closed = [])) :=
  ⟨by decide, io_error_handling [3] (-1) 0 512 7 2 ⟨0, 512, 1⟩ ⟨[], [], []⟩ true (by decide)⟩

/-- Claim C8: for every large-block operation (read or write), the chosen
offset `(rand_48() mod num_large_blocks) * large_block_bytes` is a multiple
of `large_block_bytes`, and offset + `large_block_bytes` is at most the
device's byte size, for any device geometry produced by setup. -/
theorem large_block_offset_bounds (cfg : Config) (db : Nat) (openOk seekOk : Bool)
    (readOk : Nat → Bool) (geom : DeviceGeom) (r1 r2 : Nat)
    (hdb : db < UINT64_CARD)
    (h : discover_num_blocks cfg db openOk seekOk readOk = some geom) :
    random_large_block_offset cfg geom (rand_48 r1 r2) % cfg.large_block_ops_bytes = 0 ∧
    random_large_block_offset cfg geom (rand_48 r1 r2) + cfg.large_block_ops_bytes ≤ db := by
  obtain ⟨h1, h2, -, -, -, -⟩ := discover_fields h
  have hnlb0 : 0 < geom.num_large_blocks := Nat.pos_of_ne_zero h2
  have hmul : geom.num_large_blocks * cfg.large_block_ops_bytes ≤ db := by
    rw [h1]
    exact Nat.div_mul_le_self db _
  have hmod := Nat.mod_lt (rand_48 r1 r2) hnlb0
  have hle : (rand_48 r1 r2 % geom.num_large_blocks) * cfg.large_block_ops_bytes
        + cfg.large_block_ops_bytes
      ≤ geom.num_large_blocks * cfg.large_block_ops_bytes := by
    calc (rand_48 r1 r2 % geom.num_large_blocks) * cfg.large_block_ops_bytes
          + cfg.large_block_ops_bytes
        = (rand_48 r1 r2 % geom.num_large_blocks + 1) * cfg.large_block_ops_bytes := by ring
      _ ≤ geom.num_large_blocks * cfg.large_block_ops_bytes :=
        Nat.mul_le_mul_right _ hmod
  have hoff : random_large_block_offset cfg geom (rand_48 r1 r2)
      = (rand_48 r1 r2 % geom.num_large_blocks) * cfg.large_block_ops_bytes := by
    unfold random_large_block_offset
    exact u64_eq_of_lt (lt_of_le_of_lt (le_trans (by omega) hmul) hdb)
  rw [hoff]
  exact ⟨Nat.mul_mod_left _ _, le_trans hle hmul⟩

/-- Claim C8 witness: a 1 MiB device with 8 large blocks of 128 KiB and a
512-byte minimum op size. -/
theorem large_block_offset_bounds_witness :
    (1048576 < UINT64_CARD) ∧
    (discover_num_blocks cfgDefault 1048576 true true readOk512
      = some ⟨8, 2046, 512, 1536⟩) ∧
    (random_large_block_offset cfgDefault ⟨8, 2046, 512, 1536⟩ (rand_48 7 9)
        % cfgDefault.large_block_ops_bytes = 0 ∧
     random_large_block_offset cfgDefault ⟨8, 2046, 512, 1536⟩ (rand_48 7 9)
        + cfgDefault.large_block_ops_bytes ≤ 1048576) :=
  ⟨by decide, by decide,
   large_block_offset_bounds cfgDefault 1048576 true true readOk512
     ⟨8, 2046, 512, 1536⟩ 7 9 (by decide) (by decide)⟩

/-- Claim C9: the generator assigns iteration `count` to queue
`count mod num_queues`, so over any window of N consecutive iterations each
queue `i < num_queues` receives exactly `N / num_queues` (floor) or
`(N + num_queues - 1) / num_queues` (ceiling) requests, independent of the
number of devices. -/
theorem fanout_fairness (s N q i : Nat) (hq : 0 < q) (hi : i < q) :
    ((Finset.Ico s (s + N)).filter (fun c => queue_index c q = i)).card = N / q ∨
    ((Finset.Ico s (s + N)).filter (fun c => queue_index c q = i)).card
      = (N + q - 1) / q := by
  rw [cnt_formula hq hi]
  by_cases hcase : (i + (q - s % q)) % q < N % q
  · right
    rw [if_pos hcase]
    obtain ⟨a, b, hab, hb⟩ : ∃ a b, N = q * a + b ∧ b < q :=
      ⟨N / q, N % q, (Nat.div_add_mod N q).symm, Nat.mod_lt N hq⟩
    have hNdiv : N / q = a := by
      rw [hab, Nat.add_comm (q * a) b, Nat.add_mul_div_left _ _ hq, Nat.div_eq_of_lt hb]
      omega
    have hNmod : N % q = b := by
      rw [hab, Nat.add_comm (q * a) b, Nat.add_mul_mod_self_left, Nat.mod_eq_of_lt hb]
    have hb1 : 1 ≤ b := by
      rw [hNmod] at hcase
      omega
    have hceil : (N + q - 1) / q = a + 1 := by
      have hrw : N + q - 1 = (b - 1) + q * (a + 1) := by
        rw [Nat.mul_add, Nat.mul_one]
        omega
      rw [hrw, Nat.add_mul_div_left _ _ hq, Nat.div_eq_of_lt (by omega)]
      omega
    rw [hceil, hNdiv]
  · left
    rw [if_neg hcase]
    omega

/-- Claim C9 witness: a window of 5 iterations over 2 queues gives queue 0
exactly 3 = ceil(5/2) requests. -/
theorem fanout_fairness_witness :
    (0 < 2) ∧ (0 < 2) ∧
    (((Finset.Ico 0 (0 + 5)).filter (fun c => queue_index c 2 = 0)).card = 5 / 2 ∨
     ((Finset.Ico 0 (0 + 5)).filter (fun c => queue_index c 2 = 0)).card
       = (5 + 2 - 1) / 2) :=
  ⟨by decide, by decide, fanout_fairness 0 5 2 0 (by decide) (by decide)⟩

/-- Claim C10: `safe_delta_ns` returns `stop - start` when `start ≤ stop`
and 0 otherwise (equal to `max 0 (stop - start)` over the integers, so no
unsigned wraparound), and on a successful transaction read every latency
value `read_and_report` inserts into each of the three histograms is such a
`safe_delta_ns` value. -/
theorem safe_delta_correct (start_ns stop_ns raw_start : Nat) (req : ReadReq)
    (hists : Hists) (running : Bool) (pool : List Int) (openResult : Int)
    (hfd : (fd_get pool openResult).1 ≠ -1) (hstop : u64 stop_ns ≠ UINT64_MAX) :
    safe_delta_ns start_ns stop_ns = ((stop_ns : ℤ) - (start_ns : ℤ)).toNat ∧
    (start_ns ≤ stop_ns → safe_delta_ns start_ns stop_ns = stop_ns - start_ns) ∧
    (stop_ns < start_ns → safe_delta_ns start_ns stop_ns = 0) ∧
    (read_and_report req hists running pool openResult true raw_start stop_ns).hists.raw_read
      = hists.raw_read ++ [safe_delta_ns raw_start (u64 stop_ns)] ∧
    (read_and_report req hists running pool openResult true raw_start stop_ns).hists.read
      = hists.read ++ [safe_delta_ns req.start_time (u64 stop_ns)] ∧
    (read_and_report req hists running pool openResult true raw_start stop_ns).hists.dev_raw_read
      = hists.dev_raw_read ++ [safe_delta_ns raw_start (u64 stop_ns)] := by
  have hokr : read_from_device pool openResult req.offset req.size true stop_ns =
      { ret := u64 stop_ns,
        pool := fd_put (fd_get pool openResult).2 (fd_get pool openResult).1,
        closed := [] } := by
    simp [read_from_device, hfd]
  refine ⟨?_, ?_, ?_, ?_, ?_, ?_⟩
  · unfold safe_delta_ns
    split_ifs <;> omega
  · intro hle
    unfold safe_delta_ns
    split_ifs <;> omega
  · intro hlt
    unfold safe_delta_ns
    split_ifs <;> omega
  all_goals simp [read_and_report, hokr, hstop, histogram_insert_data_point]

/-- Claim C10 witness: concrete timestamps 2 ≤ 9 on a successful read with
pooled descriptor 5. -/
theorem safe_delta_correct_witness :
    ((fd_get [5] (-1)).1 ≠ -1) ∧ (u64 9 ≠ UINT64_MAX) ∧
    (safe_delta_ns 2 9 = ((9 : ℤ) - (2 : ℤ)).toNat ∧
     ((2 : Nat) ≤ 9 → safe_delta_ns 2 9 = 9 - 2) ∧
     ((9 : Nat) < 2 → safe_delta_ns 2 9 = 0) ∧
     (read_and_report ⟨0, 512, 1⟩ ⟨[], [], []⟩ true [5] (-1) true 4 9).hists.raw_read
       = ([] : List Nat) ++ [safe_delta_ns 4 (u64 9)] ∧
     (read_and_report ⟨0, 512, 1⟩ ⟨[], [], []⟩ true [5] (-1) true 4 9).hists.read
       = ([] : List Nat) ++ [safe_delta_ns (⟨0, 512, 1⟩ : ReadReq).start_time (u64 9)] ∧
     (read_and_report ⟨0, 512, 1⟩ ⟨[], [], []⟩ true [5] (-1) true 4 9).hists.dev_raw_read
       = ([] : List Nat) ++ [safe_delta_ns 4 (u64 9)]) :=
  ⟨by decide, by decide,
   safe_delta_correct 2 9 4 ⟨0, 512, 1⟩ ⟨[], [], []⟩ true [5] (-1) (by decide) (by decide)⟩

/-- Claim C1 counterexample: on a one-large-block device (131072 bytes,
min op size 512) with `record-bytes` 200000, setup succeeds (the code has
no smallness check and the unsigned `num_read_offsets` computation wraps),
and the request built by the generator for `rand()` values 0 has
offset + size = 200192 > 131072 = num_large_blocks * large_block_bytes,
contradicting the claimed bound. -/
theorem readreq_geometry_cex :
    (discover_num_blocks cfgBigRecord 131072 true true readOk512).isSome = true ∧
    (mk_readreq ((discover_num_blocks cfgBigRecord 131072 true true readOk512).getD
          ⟨0, 0, 0, 0⟩) 0 0 0).offset
      + (mk_readreq ((discover_num_blocks cfgBigRecord 131072 true true readOk512).getD
          ⟨0, 0, 0, 0⟩) 0 0 0).size
      > ((discover_num_blocks cfgBigRecord 131072 true true readOk512).getD
          ⟨0, 0, 0, 0⟩).num_large_blocks * cfgBigRecord.large_block_ops_bytes := by
  decide

/-- Claim C1 (amended): for every ReadRequest produced by the transaction
generator, the request's size equals its device's `read_bytes`, its offset
is `(rand_48() mod num_read_offsets) * min_op_bytes` and hence a multiple
of `min_op_bytes`, and — provided the computed `read_req_min_op_blocks` is
at most `num_min_op_blocks`, i.e. the device holds at least one full read
and the unsigned `num_read_offsets` computation does not wrap —
offset + size ≤ num_large_blocks * large_block_bytes ≤ the device's byte
size, for the geometry computed at setup. -/
theorem readreq_geometry (cfg : Config) (db : Nat) (openOk seekOk : Bool)
    (readOk : Nat → Bool) (geom : DeviceGeom) (r1 r2 now : Nat)
    (h : discover_num_blocks cfg db openOk seekOk readOk = some geom)
    (hfit : read_req_min_op_blocks cfg geom.min_op_bytes
      ≤ num_min_op_blocks cfg geom.num_large_blocks geom.min_op_bytes) :
    (mk_readreq geom r1 r2 now).size = geom.read_bytes ∧
    (mk_readreq geom r1 r2 now).offset
      = (rand_48 r1 r2 % geom.num_read_offsets) * geom.min_op_bytes ∧
    (mk_readreq geom r1 r2 now).offset % geom.min_op_bytes = 0 ∧
    (mk_readreq geom r1 r2 now).offset + (mk_readreq geom r1 r2 now).size
      ≤ geom.num_large_blocks * cfg.large_block_ops_bytes ∧
    geom.num_large_blocks * cfg.large_block_ops_bytes ≤ db := by
  obtain ⟨h1, h2, h3, h4, h5, h6⟩ := discover_fields h
  obtain ⟨hm512, hm4096, hmdvd⟩ := min_op_facts h
  have hnro : geom.num_read_offsets
      = num_min_op_blocks cfg geom.num_large_blocks geom.min_op_bytes + 1
        - read_req_min_op_blocks cfg geom.min_op_bytes := by
    rw [h5]
    exact nro_of_fit cfg geom.num_large_blocks hm512 (by omega)
  have hnro1 : 1 ≤ geom.num_read_offsets := by
    rw [hnro]
    omega
  have hrle : rand_48 r1 r2 % geom.num_read_offsets
      ≤ num_min_op_blocks cfg geom.num_large_blocks geom.min_op_bytes
        - read_req_min_op_blocks cfg geom.min_op_bytes := by
    have := Nat.mod_lt (rand_48 r1 r2) (show 0 < geom.num_read_offsets by omega)
    omega
  have hnm : num_min_op_blocks cfg geom.num_large_blocks geom.min_op_bytes
        * geom.min_op_bytes
      ≤ u64 (geom.num_large_blocks * cfg.large_block_ops_bytes) :=
    nmob_mul_le cfg geom.num_large_blocks geom.min_op_bytes
  have hub : u64 (geom.num_large_blocks * cfg.large_block_ops_bytes)
      ≤ geom.num_large_blocks * cfg.large_block_ops_bytes := u64_le _
  have hoffdef : (mk_readreq geom r1 r2 now).offset
      = random_read_offset geom (rand_48 r1 r2) := rfl
  have hoffval : (mk_readreq geom r1 r2 now).offset
      = (rand_48 r1 r2 % geom.num_read_offsets) * geom.min_op_bytes := by
    rw [hoffdef]
    unfold random_read_offset
    apply u64_eq_of_lt
    calc (rand_48 r1 r2 % geom.num_read_offsets) * geom.min_op_bytes
        ≤ num_min_op_blocks cfg geom.num_large_blocks geom.min_op_bytes
            * geom.min_op_bytes := Nat.mul_le_mul_right _ (by omega)
      _ ≤ u64 (geom.num_large_blocks * cfg.large_block_ops_bytes) := hnm
      _ < UINT64_CARD := u64_lt _
  refine ⟨rfl, hoffval, ?_, ?_, ?_⟩
  · rw [hoffval]
    exact Nat.mul_mod_left _ _
  · have hsize : (mk_readreq geom r1 r2 now).size = geom.read_bytes := rfl
    rw [hoffval, hsize, h6]
    have hsz : u32 (read_req_min_op_blocks cfg geom.min_op_bytes * geom.min_op_bytes)
        ≤ read_req_min_op_blocks cfg geom.min_op_bytes * geom.min_op_bytes := u32_le _
    have hsum : (num_min_op_blocks cfg geom.num_large_blocks geom.min_op_bytes
            - read_req_min_op_blocks cfg geom.min_op_bytes) * geom.min_op_bytes
          + read_req_min_op_blocks cfg geom.min_op_bytes * geom.min_op_bytes
        ≤ num_min_op_blocks cfg geom.num_large_blocks geom.min_op_bytes
            * geom.min_op_bytes := by
      have hrw : (num_min_op_blocks cfg geom.num_large_blocks geom.min_op_bytes
              - read_req_min_op_blocks cfg geom.min_op_bytes) * geom.min_op_bytes
            + read_req_min_op_blocks cfg geom.min_op_bytes * geom.min_op_bytes
          = (num_min_op_blocks cfg geom.num_large_blocks geom.min_op_bytes
              - read_req_min_op_blocks cfg geom.min_op_bytes
              + read_req_min_op_blocks cfg geom.min_op_bytes) * geom.min_op_bytes := by
        ring
      rw [hrw]
      exact Nat.mul_le_mul_right _ (by omega)
    calc (rand_48 r1 r2 % geom.num_read_offsets) * geom.min_op_bytes
          + u32 (read_req_min_op_blocks cfg geom.min_op_bytes * geom.min_op_bytes)
        ≤ (num_min_op_blocks cfg geom.num_large_blocks geom.min_op_bytes
              - read_req_min_op_blocks cfg geom.min_op_bytes) * geom.min_op_bytes
            + read_req_min_op_blocks cfg geom.min_op_bytes * geom.min_op_bytes :=
          Nat.add_le_add (Nat.mul_le_mul_right _ hrle) hsz
      _ ≤ num_min_op_blocks cfg geom.num_large_blocks geom.min_op_bytes
            * geom.min_op_bytes := hsum
      _ ≤ u64 (geom.num_large_blocks * cfg.large_block_ops_bytes) := hnm
      _ ≤ geom.num_large_blocks * cfg.large_block_ops_bytes := hub
  · rw [h1]
    exact Nat.div_mul_le_self db _

/-- Claim C1 witness: a 1 MiB device with 8 large blocks, 512-byte min op
size and the default 1536-byte record. -/
theorem readreq_geometry_witness :
    (discover_num_blocks cfgDefault 1048576 true true readOk512
      = some ⟨8, 2046, 512, 1536⟩) ∧
    (read_req_min_op_blocks cfgDefault (⟨8, 2046, 512, 1536⟩ : DeviceGeom).min_op_bytes
      ≤ num_min_op_blocks cfgDefault
          (⟨8, 2046, 512, 1536⟩ : DeviceGeom).num_large_blocks
          (⟨8, 2046, 512, 1536⟩ : DeviceGeom).min_op_bytes) ∧
    ((mk_readreq ⟨8, 2046, 512, 1536⟩ 7 9 11).size
        = (⟨8, 2046, 512, 1536⟩ : DeviceGeom).read_bytes ∧
     (mk_readreq ⟨8, 2046, 512, 1536⟩ 7 9 11).offset
        = (rand_48 7 9 % (⟨8, 2046, 512, 1536⟩ : DeviceGeom).num_read_offsets)
          * (⟨8, 2046, 512, 1536⟩ : DeviceGeom).min_op_bytes ∧
     (mk_readreq ⟨8, 2046, 512, 1536⟩ 7 9 11).offset
        % (⟨8, 2046, 512, 1536⟩ : DeviceGeom).min_op_bytes = 0 ∧
     (mk_readreq ⟨8, 2046, 512, 1536⟩ 7 9 11).offset
        + (mk_readreq ⟨8, 2046, 512, 1536⟩ 7 9 11).size
        ≤ (⟨8, 2046, 512, 1536⟩ : DeviceGeom).num_large_blocks
          * cfgDefault.large_block_ops_bytes ∧
     (⟨8, 2046, 512, 1536⟩ : DeviceGeom).num_large_blocks
        * cfgDefault.large_block_ops_bytes ≤ 1048576) :=
  ⟨by decide, by decide,
   readreq_geometry cfgDefault 1048576 true true readOk512 ⟨8, 2046, 512, 1536⟩ 7 9 11
     (by decide) (by decide)⟩

/-- Claim C2 counterexample: with `record-bytes` 4294967295 on a device
probed at 512 bytes, the 32-bit numerator `record_bytes + min_op_bytes - 1`
wraps, the code stores `read_bytes` = 0, and the claimed formula
`read_bytes = ceil(record_bytes / min_op_bytes) * min_op_bytes` fails. -/
theorem geom_formulas_cex :
    (discover_num_blocks cfgHugeRecord 131072 true true readOk512).isSome = true ∧
    ((discover_num_blocks cfgHugeRecord 131072 true true readOk512).getD
        ⟨0, 0, 0, 0⟩).min_op_bytes = 512 ∧
    ((discover_num_blocks cfgHugeRecord 131072 true true readOk512).getD
        ⟨0, 0, 0, 0⟩).read_bytes = 0 ∧
    ((discover_num_blocks cfgHugeRecord 131072 true true readOk512).getD
        ⟨0, 0, 0, 0⟩).read_bytes
      ≠ ((cfgHugeRecord.record_bytes + 512 - 1) / 512) * 512 := by
  decide

/-- Claim C2 (amended): for every device with discovered `min_op_bytes` and
`num_large_blocks`, provided `record_bytes + min_op_bytes ≤ 2^32` (so the
32-bit rounding numerator does not wrap), the probe computes
`read_req_blocks = ceil(record_bytes / min_op_bytes)` and
`read_bytes = read_req_blocks * min_op_bytes`; `num_read_offsets` equals
`num_min_op_blocks - read_req_blocks + 1` (as an integer) whenever that
value is non-negative, the 64-bit computation wrapping otherwise; in
particular, when `record_bytes` is a multiple of `min_op_bytes`,
`read_bytes` equals `record_bytes`. -/
theorem geom_formulas (cfg : Config) (db : Nat) (openOk seekOk : Bool)
    (readOk : Nat → Bool) (geom : DeviceGeom)
    (h : discover_num_blocks cfg db openOk seekOk readOk = some geom)
    (hrec : cfg.record_bytes + geom.min_op_bytes ≤ UINT32_CARD) :
    read_req_min_op_blocks cfg geom.min_op_bytes
      = cfg.record_bytes / geom.min_op_bytes
        + (if cfg.record_bytes % geom.min_op_bytes = 0 then 0 else 1) ∧
    geom.read_bytes
      = read_req_min_op_blocks cfg geom.min_op_bytes * geom.min_op_bytes ∧
    (read_req_min_op_blocks cfg geom.min_op_bytes
        ≤ num_min_op_blocks cfg geom.num_large_blocks geom.min_op_bytes + 1 →
      (geom.num_read_offsets : ℤ)
        = (num_min_op_blocks cfg geom.num_large_blocks geom.min_op_bytes : ℤ)
          - (read_req_min_op_blocks cfg geom.min_op_bytes : ℤ) + 1) ∧
    (cfg.record_bytes % geom.min_op_bytes = 0 →
      geom.read_bytes = cfg.record_bytes) := by
  obtain ⟨h1, h2, h3, h4, h5, h6⟩ := discover_fields h
  obtain ⟨hm512, hm4096, hmdvd⟩ := min_op_facts h
  have hm0 : 0 < geom.min_op_bytes := by omega
  have hnumlt : cfg.record_bytes + geom.min_op_bytes - 1 < UINT32_CARD := by omega
  have hnum : u32 (cfg.record_bytes + geom.min_op_bytes - 1)
      = cfg.record_bytes + geom.min_op_bytes - 1 := u32_eq_of_lt hnumlt
  have hrrb : read_req_min_op_blocks cfg geom.min_op_bytes
      = (cfg.record_bytes + geom.min_op_bytes - 1) / geom.min_op_bytes := by
    unfold read_req_min_op_blocks
    rw [hnum]
  have hceil : read_req_min_op_blocks cfg geom.min_op_bytes
      = cfg.record_bytes / geom.min_op_bytes
        + (if cfg.record_bytes % geom.min_op_bytes = 0 then 0 else 1) := by
    rw [hrrb]
    exact ceil_div cfg.record_bytes hm0
  have hrb : geom.read_bytes
      = read_req_min_op_blocks cfg geom.min_op_bytes * geom.min_op_bytes := by
    rw [h6]
    apply u32_eq_of_lt
    have : read_req_min_op_blocks cfg geom.min_op_bytes * geom.min_op_bytes
        ≤ cfg.record_bytes + geom.min_op_bytes - 1 := by
      rw [hrrb]
      exact Nat.div_mul_le_self _ _
    omega
  refine ⟨hceil, hrb, ?_, ?_⟩
  · intro hfit
    rw [h5, nro_of_fit cfg geom.num_large_blocks hm512 hfit]
    omega
  · intro hz
    rw [hrb, hceil, if_pos hz, Nat.add_zero]
    exact Nat.div_mul_cancel (Nat.dvd_of_mod_eq_zero hz)

/-- Claim C2 witness: the default 1536-byte record on a 512-byte-sector
1 MiB device: `read_req_blocks` = 3, `read_bytes` = 1536 = record size,
`num_read_offsets` = 2048 - 3 + 1 = 2046. -/
theorem geom_formulas_witness :
    (discover_num_blocks cfgDefault 1048576 true true readOk512
      = some ⟨8, 2046, 512, 1536⟩) ∧
    (cfgDefault.record_bytes + (⟨8, 2046, 512, 1536⟩ : DeviceGeom).min_op_bytes
      ≤ UINT32_CARD) ∧
    (read_req_min_op_blocks cfgDefault 512
        = cfgDefault.record_bytes / 512
          + (if cfgDefault.record_bytes % 512 = 0 then 0 else 1) ∧
     (⟨8, 2046, 512, 1536⟩ : DeviceGeom).read_bytes
        = read_req_min_op_blocks cfgDefault 512 * 512 ∧
     (read_req_min_op_blocks cfgDefault 512 ≤ num_min_op_blocks cfgDefault 8 512 + 1 →
       ((⟨8, 2046, 512, 1536⟩ : DeviceGeom).num_read_offsets : ℤ)
         = (num_min_op_blocks cfgDefault 8 512 : ℤ)
           - (read_req_min_op_blocks cfgDefault 512 : ℤ) + 1) ∧
     (cfgDefault.record_bytes % 512 = 0 →
       (⟨8, 2046, 512, 1536⟩ : DeviceGeom).read_bytes = cfgDefault.record_bytes)) :=
  ⟨by decide, by decide,
   geom_formulas cfgDefault 1048576 true true readOk512 ⟨8, 2046, 512, 1536⟩
     (by decide) (by decide)⟩

/-- Claim C3 counterexample: a device holding exactly one large block with
`record-bytes` 200000 has mathematical
`num_read_offsets = num_min_op_blocks - read_req_blocks + 1 = 256 - 391 + 1 ≤ 0`,
yet setup succeeds — there is no DeviceTooSmall failure; the stored
`num_read_offsets` is the wrapped value 2^64 - 134. -/
theorem setup_failure_cex :
    (discover_num_blocks cfgBigRecord 131072 true true readOk512).isSome = true ∧
    num_min_op_blocks cfgBigRecord
        ((discover_num_blocks cfgBigRecord 131072 true true readOk512).getD
          ⟨0, 0, 0, 0⟩).num_large_blocks
        ((discover_num_blocks cfgBigRecord 131072 true true readOk512).getD
          ⟨0, 0, 0, 0⟩).min_op_bytes + 1
      ≤ read_req_min_op_blocks cfgBigRecord
        ((discover_num_blocks cfgBigRecord 131072 true true readOk512).getD
          ⟨0, 0, 0, 0⟩).min_op_bytes ∧
    ((discover_num_blocks cfgBigRecord 131072 true true readOk512).getD
        ⟨0, 0, 0, 0⟩).num_read_offsets = UINT64_CARD - 134 := by
  decide

/-- Claim C3 (amended): device setup fails exactly when the descriptor
cannot be obtained, the device holds less than one large block, the
probe's initial seek fails, or the probe read fails at every size from 512
to 4096 bytes (the spec's DeviceUnreadable).  There is no DeviceTooSmall
check: `num_read_offsets ≤ 0` is never detected (the unsigned computation
wraps instead, see the counterexample). -/
theorem setup_failure (cfg : Config) (db : Nat) (openOk seekOk : Bool)
    (readOk : Nat → Bool) :
    discover_num_blocks cfg db openOk seekOk readOk = none ↔
      openOk = false ∨ db / cfg.large_block_ops_bytes = 0 ∨ seekOk = false ∨
      (readOk 512 = false ∧ readOk 1024 = false ∧
        readOk 2048 = false ∧ readOk 4096 = false) := by
  have hid : u32 (discover_min_op_bytes seekOk readOk)
      = discover_min_op_bytes seekOk readOk := by
    rcases dmob_mem seekOk readOk with h0 | h0 | h0 | h0 | h0 <;> rw [h0] <;> rfl
  simp only [discover_num_blocks]
  split_ifs with h1 h2
  · simp [h1]
  · simp only [true_iff]
    rcases h2 with h2 | h2
    · exact Or.inr (Or.inl h2)
    · rw [hid, dmob_eq_zero_iff] at h2
      rcases h2 with h2 | h2
      · exact Or.inr (Or.inr (Or.inl h2))
      · exact Or.inr (Or.inr (Or.inr h2))
  · constructor
    · intro hc
      simp at hc
    · intro hrhs
      exfalso
      push_neg at h2
      rcases hrhs with hx | hx | hx | hx
      · exact h1 hx
      · exact h2.1 hx
      · exact h2.2 (by rw [hid]; exact (dmob_eq_zero_iff seekOk readOk).mpr (Or.inl hx))
      · exact h2.2 (by rw [hid]; exact (dmob_eq_zero_iff seekOk readOk).mpr (Or.inr hx))

/-- Claim C5 counterexample: with the `max-reqs-queued` key set to 5 and
the counter at 5, the increment makes 6 > 5, yet the generator does not
flag overload, does not clear running, and proceeds to enqueue — the loop
compares against the compile-time constant `MAX_READ_REQS_QUEUED`, not the
configured threshold. -/
theorem overload_check_cex :
    cfgSmallMax.max_reqs_queued = 5 ∧
    sAtFive.reqs_queued + 1 > cfgSmallMax.max_reqs_queued ∧
    (step cfgSmallMax .genIncr sAtFive).running = true ∧
    (step cfgSmallMax .genIncr sAtFive).overloaded = false ∧
    (step cfgSmallMax .genIncr sAtFive).genPending = true ∧
    (step cfgSmallMax .genIncr sAtFive).queued = sAtFive.queued := by
  decide

/-- Claim C5 (amended): in the transaction generator loop, `reqs_queued` is
incremented first each iteration, and when the incremented value exceeds
the compile-time constant `MAX_READ_REQS_QUEUED` = 100000 (the
`max-reqs-queued` configuration key is not consulted by this code) the
generator flags overload, clears running, and exits without enqueuing a
request; otherwise it proceeds to enqueue with running still set. -/
theorem overload_check (cfg : Config) (s : SysState)
    (hrun : s.running = true) (hpend : s.genPending = false)
    (hexit : s.genExited = false) (hbound : s.reqs_queued + 1 < UINT32_CARD) :
    (s.reqs_queued + 1 > MAX_READ_REQS_QUEUED →
      (step cfg .genIncr s).reqs_queued = s.reqs_queued + 1 ∧
      (step cfg .genIncr s).running = false ∧
      (step cfg .genIncr s).overloaded = true ∧
      (step cfg .genIncr s).genExited = true ∧
      (step cfg .genIncr s).queued = s.queued ∧
      (step cfg .genIncr s).genPending = false) ∧
    (s.reqs_queued + 1 ≤ MAX_READ_REQS_QUEUED →
      (step cfg .genIncr s).reqs_queued = s.reqs_queued + 1 ∧
      (step cfg .genIncr s).running = true ∧
      (step cfg .genIncr s).overloaded = s.overloaded ∧
      (step cfg .genIncr s).genPending = true ∧
      (step cfg .genIncr s).queued = s.queued) := by
  have hu : u32 (s.reqs_queued + 1) = s.reqs_queued + 1 := u32_eq_of_lt hbound
  constructor
  · intro hcmp
    simp [step, hrun, hpend, hexit, hu, hcmp]
  · intro hcmp
    have hncmp : ¬(MAX_READ_REQS_QUEUED < s.reqs_queued + 1) := by omega
    simp [step, hrun, hpend, hexit, hu, hncmp]

/-- Claim C5 witness: the overload branch fires at counter value 100000
(incremented to 100001 > 100000). -/
theorem overload_check_witness :
    (sAtMax.running = true) ∧ (sAtMax.genPending = false) ∧
    (sAtMax.genExited = false) ∧ (sAtMax.reqs_queued + 1 < UINT32_CARD) ∧
    ((sAtMax.reqs_queued + 1 > MAX_READ_REQS_QUEUED →
      (step cfgDefault .genIncr sAtMax).reqs_queued = sAtMax.reqs_queued + 1 ∧
      (step cfgDefault .genIncr sAtMax).running = false ∧
      (step cfgDefault .genIncr sAtMax).overloaded = true ∧
      (step cfgDefault .genIncr sAtMax).genExited = true ∧
      (step cfgDefault .genIncr sAtMax).queued = sAtMax.queued ∧
      (step cfgDefault .genIncr sAtMax).genPending = false) ∧
     (sAtMax.reqs_queued + 1 ≤ MAX_READ_REQS_QUEUED →
      (step cfgDefault .genIncr sAtMax).reqs_queued = sAtMax.reqs_queued + 1 ∧
      (step cfgDefault .genIncr sAtMax).running = true ∧
      (step cfgDefault .genIncr sAtMax).overloaded = sAtMax.overloaded ∧
      (step cfgDefault .genIncr sAtMax).genPending = true ∧
      (step cfgDefault .genIncr sAtMax).queued = sAtMax.queued)) :=
  ⟨rfl, rfl, rfl, by decide,
   overload_check cfgDefault sAtMax rfl rfl rfl (by decide)⟩

/-- Claim C6 counterexample: on a 512-byte-sector device with the default
1536-byte record, the transaction read issued by a worker has length
`read_bytes` = 1536, which is not a multiple of 4096 — the claim that
every buffer passed to the I/O engine has length a multiple of 4096
fails. -/
theorem buffer_alignment_cex :
    (discover_num_blocks cfgDefault 1048576 true true readOk512).isSome = true ∧
    ((discover_num_blocks cfgDefault 1048576 true true readOk512).getD
        ⟨0, 0, 0, 0⟩).min_op_bytes = 512 ∧
    (mk_readreq ((discover_num_blocks cfgDefault 1048576 true true readOk512).getD
        ⟨0, 0, 0, 0⟩) 0 0 0).size = 1536 ∧
    (mk_readreq ((discover_num_blocks cfgDefault 1048576 true true readOk512).getD
        ⟨0, 0, 0, 0⟩) 0 0 0).size % 4096 ≠ 0 := by
  decide

/-- Claim C6 (amended): every buffer passed to the I/O engine has its
address a multiple of 4096: the worker's stack buffer of size
`read_bytes + 4096` is aligned up by `align_4096` to a 4096 boundary that
still lies inside the allocation, and a read of size `read_bytes` fits in
it; the transaction read length `read_bytes` is a multiple of the device's
`min_op_bytes` (a multiple of 4096 only when `min_op_bytes` is 4096), not
of 4096 in general. -/
theorem buffer_alignment (cfg : Config) (db : Nat) (openOk seekOk : Bool)
    (readOk : Nat → Bool) (geom : DeviceGeom) (addr : Nat)
    (h : discover_num_blocks cfg db openOk seekOk readOk = some geom)
    (haddr : addr + 4095 < UINT64_CARD) :
    align_4096 addr % 4096 = 0 ∧
    addr ≤ align_4096 addr ∧
    align_4096 addr + geom.read_bytes ≤ addr + (geom.read_bytes + 4096) ∧
    geom.read_bytes % geom.min_op_bytes = 0 := by
  obtain ⟨hal1, hal2, hal3⟩ := align_props haddr
  obtain ⟨-, -, -, -, -, h6⟩ := discover_fields h
  obtain ⟨-, -, hmdvd⟩ := min_op_facts h
  refine ⟨hal1, hal2, by omega, ?_⟩
  rw [h6]
  unfold u32
  rw [Nat.mod_mod_of_dvd _ hmdvd, Nat.mul_mod_left]

/-- Claim C6 witness: a stack buffer at address 10000 for the default
geometry: the aligned pointer is 12288, inside [10000, 10000 + 1536 + 4096],
and 1536 is a multiple of 512. -/
theorem buffer_alignment_witness :
    (discover_num_blocks cfgDefault 1048576 true true readOk512
      = some ⟨8, 2046, 512, 1536⟩) ∧
    (10000 + 4095 < UINT64_CARD) ∧
    (align_4096 10000 % 4096 = 0 ∧
     10000 ≤ align_4096 10000 ∧
     align_4096 10000 + (⟨8, 2046, 512, 1536⟩ : DeviceGeom).read_bytes
       ≤ 10000 + ((⟨8, 2046, 512, 1536⟩ : DeviceGeom).read_bytes + 4096) ∧
     (⟨8, 2046, 512, 1536⟩ : DeviceGeom).read_bytes
       % (⟨8, 2046, 512, 1536⟩ : DeviceGeom).min_op_bytes = 0) :=
  ⟨by decide, by decide,
   buffer_alignment cfgDefault 1048576 true true readOk512 ⟨8, 2046, 512, 1536⟩ 10000
     (by decide) (by decide)⟩

/-- Claim C7 counterexample: a graceful run (supervisor clears running; no
overload) in which the generator enqueued one request that no worker ever
popped: after the generator and the single worker have exited,
`reqs_queued` is 1, not 0 — the request is stranded in the queue. -/
theorem shutdown_counter_cex :
    ((runEvents cfgDefault [.genIncr, .genPush, .stopRun, .genExit, .workerExit]
        (initState 1)).running = false) ∧
    ((runEvents cfgDefault [.genIncr, .genPush, .stopRun, .genExit, .workerExit]
        (initState 1)).genExited = true) ∧
    ((runEvents cfgDefault [.genIncr, .genPush, .stopRun, .genExit, .workerExit]
        (initState 1)).activeWorkers = 0) ∧
    ((runEvents cfgDefault [.genIncr, .genPush, .stopRun, .genExit, .workerExit]
        (initState 1)).overloaded = false) ∧
    ((runEvents cfgDefault [.genIncr, .genPush, .stopRun, .genExit, .workerExit]
        (initState 1)).reqs_queued ≠ 0) := by
  decide

/-- Claim C7 (amended): after a graceful shutdown (generator exited, all
workers exited, no overload), `reqs_queued` equals the number of requests
still sitting in the queues — it is 0 exactly when the queues were drained
before the workers exited, which the code does not guarantee. -/
theorem shutdown_counter (cfg : Config) (workers : Nat) (evs : List Ev)
    (hexit : (runEvents cfg evs (initState workers)).genExited = true)
    (hwork : (runEvents cfg evs (initState workers)).activeWorkers = 0)
    (hgrace : (runEvents cfg evs (initState workers)).overloaded = false) :
    (runEvents cfg evs (initState workers)).reqs_queued
      = (runEvents cfg evs (initState workers)).queued := by
  obtain ⟨h1, h2, h3, h4, h5, h6⟩ := inv_run cfg workers evs
  have hin : (runEvents cfg evs (initState workers)).inflight = 0 := by
    rw [hwork] at h5
    omega
  rw [h1, hin, h6 hexit, hgrace]
  simp

/-- Claim C7 witness: a graceful run whose single request was popped and
completed: the final counter equals the final queue population (both 0). -/
theorem shutdown_counter_witness :
    ((runEvents cfgDefault
        [.genIncr, .genPush, .workerPop, .workerDone, .stopRun, .genExit, .workerExit]
        (initState 1)).genExited = true) ∧
    ((runEvents cfgDefault
        [.genIncr, .genPush, .workerPop, .workerDone, .stopRun, .genExit, .workerExit]
        (initState 1)).activeWorkers = 0) ∧
    ((runEvents cfgDefault
        [.genIncr, .genPush, .workerPop, .workerDone, .stopRun, .genExit, .workerExit]
        (initState 1)).overloaded = false) ∧
    ((runEvents cfgDefault
        [.genIncr, .genPush, .workerPop, .workerDone, .stopRun, .genExit, .workerExit]
        (initState 1)).reqs_queued
      = (runEvents cfgDefault
        [.genIncr, .genPush, .workerPop, .workerDone, .stopRun, .genExit, .workerExit]
        (initState 1)).queued) :=
  ⟨by decide, by decide, by decide,
   shutdown_counter cfgDefault 1
     [.genIncr, .genPush, .workerPop, .workerDone, .stopRun, .genExit, .workerExit]
     (by decide) (by decide) (by decide)⟩

end Act
